import Mathlib

/-!
Shallow embedding of the CPU-temperature selection heuristic of
`src/sysinfo_utils.rs` and of the refresh-period update of `src/window.rs`.

Temperatures are `f32` in the source; the selection code only compares them
and never performs arithmetic, so they are modelled as `Int` (the comparisons
agree with `f32` comparison on integer-valued, non-NaN readings).  A hardware
`Component` is modelled by its two observed fields: the label string and the
optional temperature.
-/

structure Component where
  label : String
  temperature : Option Int
deriving DecidableEq

/-- The fixed label list `OVERALL_CPU_TEMP_LABELS`, in the source's order. -/
def OVERALL_CPU_TEMP_LABELS : List String :=
  ["Tctl", "Package id 0", "CPU Temperature"]

/-- The loop body of `get_overall_temperature_component_index`:
`index` starts at `-1`; on an exact label match the current `index` is
returned, otherwise `index` is incremented; after the loop `index` is
returned. -/
def indexLoop (label : String) : List String → Int → Int
  | [], index => index
  | item :: rest, index =>
      if item = label then index else indexLoop label rest (index + 1)

/-- Embeds `get_overall_temperature_component_index` of `src/sysinfo_utils.rs`. -/
def get_overall_temperature_component_index (component : Component) : Int :=
  indexLoop component.label OVERALL_CPU_TEMP_LABELS (-1)

/-- The constant `i32::MAX`, the initial value of `current_priority`. -/
def I32_MAX : Int := 2147483647

/-- The loop of `get_overall_cpu_temp`: state is `(target, current_priority)`;
a component is skipped when its priority is `-1`, when it has no temperature,
or when its priority is strictly greater than `current_priority`; otherwise it
becomes the new target. -/
def overallLoop : List Component → Option Component × Int → Option Component × Int
  | [], st => st
  | comp :: rest, st =>
      let priority := get_overall_temperature_component_index comp
      if priority = -1 then overallLoop rest st
      else if comp.temperature = none then overallLoop rest st
      else if priority > st.2 then overallLoop rest st
      else overallLoop rest (some comp, priority)

/-- Embeds `get_overall_cpu_temp` of `src/sysinfo_utils.rs`. -/
def get_overall_cpu_temp (components : List Component) : Option Int :=
  match (overallLoop components (none, I32_MAX)).1 with
  | some target_exists => target_exists.temperature
  | none => none

/-- Embeds `INTEL_CPU_REGEX`, anchored at both ends: the whole label is
the four characters of the prefix followed by exactly one digit. -/
def intelCpuRegexMatch (s : String) : Bool :=
  match s.data with
  | c1 :: c2 :: c3 :: c4 :: d :: [] =>
      c1 == 'C' && c2 == 'P' && c3 == 'U' && c4 == ' ' && d.isDigit
  | _ => false

/-- Embeds `AMD_CPU_REGEX`, anchored at both ends: the whole label is
the four characters of the prefix followed by exactly one digit. -/
def amdCpuRegexMatch (s : String) : Bool :=
  match s.data with
  | c1 :: c2 :: c3 :: c4 :: d :: [] =>
      c1 == 'T' && c2 == 'c' && c3 == 't' && c4 == 'l' && d.isDigit
  | _ => false

/-- The loop of `get_cpu_core_temps`: a component matching either per-core
regular expression and holding a temperature has that temperature pushed
onto `temps`. -/
def coreLoop : List Component → List Int → List Int
  | [], temps => temps
  | comp :: rest, temps =>
      let temp : Option Int :=
        if intelCpuRegexMatch comp.label then comp.temperature
        else if amdCpuRegexMatch comp.label then comp.temperature
        else none
      match temp with
      | some valid_temp => coreLoop rest (temps ++ [valid_temp])
      | none => coreLoop rest temps

/-- Embeds `get_cpu_core_temps` of `src/sysinfo_utils.rs`. -/
def get_cpu_core_temps (components : List Component) : List Int :=
  coreLoop components []

/-- Embeds the tail of `get_temp`: Rust `max_by` with the comparator that
answers `Greater` exactly when the accumulated element is strictly greater,
so the reduction keeps `acc` when `acc > x` and otherwise takes `x`; on an
empty iterator it yields `None`. -/
def maxByGt : List Int → Option Int
  | [] => none
  | t :: rest => some (rest.foldl (fun acc x => if acc > x then acc else x) t)

/-- Embeds `get_temp` of `src/sysinfo_utils.rs`, with the freshly enumerated
`Components` list made an explicit argument. -/
def get_temp (components : List Component) : Option Int :=
  let overall_temp := get_overall_cpu_temp components
  if overall_temp.isSome then overall_temp
  else
    let cpu_temps := get_cpu_core_temps components
    if cpu_temps.length = 0 then none
    else maxByGt cpu_temps

/-!
Embedding of the `Message::PeriodString` branch of `Window::update`
(`src/window.rs`).  Only the data that branch reads or writes is modelled:
the applet config (`src/config.rs`) and the displayed `period_string`; the
`u64` refresh period is a `Nat` with the parse enforcing the 64-bit bound.
-/

structure CPUTempAppletConfig where
  fahrenheit : Bool
  refresh_period_milliseconds : Nat
deriving DecidableEq

structure WindowState where
  period_string : String
  config : CPUTempAppletConfig
deriving DecidableEq

/-- The constant `u64::MAX`. -/
def U64_MAX : Nat := 18446744073709551615

/-- Embeds `input.parse::<u64>()`: an optional leading plus sign, then at
least one ASCII digit, and the decimal value must fit in 64 bits; anything
else is a parse error (`none`). -/
def parse_u64 (s : String) : Option Nat :=
  let ds := match s.data with
    | '+' :: rest => rest
    | cs => cs
  if ds ≠ [] ∧ ds.all Char.isDigit then
    let v := ds.foldl (fun acc c => acc * 10 + (c.toNat - Char.toNat '0')) 0
    if v ≤ U64_MAX then some v else none
  else none

/-- Embeds the `Message::PeriodString(input)` arm of `Window::update`: on a
successful parse of at least `500` the config's refresh period is set to the
parsed value (the persistence write is a side effect outside this model);
otherwise the config is untouched; in every case `period_string` becomes
`input`. -/
def update_period_string (input : String) (w : WindowState) : WindowState :=
  let w' := match parse_u64 input with
    | some valid_int =>
        if valid_int ≥ 500 then
          { w with config :=
              { w.config with refresh_period_milliseconds := valid_int } }
        else w
    | none => w
  { w' with period_string := input }

/-!  Helper lemmas about the Phase A loop. -/

/-- Closed form of the index helper: the loop returns `-1` for the first
listed label, `0` for the second, `1` for the third, and `2` when no label
matches. -/
lemma index_eq (c : Component) :
    get_overall_temperature_component_index c =
      if c.label = "Tctl" then -1
      else if c.label = "Package id 0" then 0
      else if c.label = "CPU Temperature" then 1
      else 2 := by
  simp only [get_overall_temperature_component_index, OVERALL_CPU_TEMP_LABELS, indexLoop]
  by_cases h1 : c.label = "Tctl"
  · rw [if_pos h1.symm, if_pos h1]
  · rw [if_neg (fun h => h1 h.symm), if_neg h1]
    by_cases h2 : c.label = "Package id 0"
    · rw [if_pos h2.symm, if_pos h2]
      norm_num
    · rw [if_neg (fun h => h2 h.symm), if_neg h2]
      by_cases h3 : c.label = "CPU Temperature"
      · rw [if_pos h3.symm, if_pos h3]
        norm_num
      · rw [if_neg (fun h => h3 h.symm), if_neg h3]
        norm_num

lemma index_le_two (c : Component) : get_overall_temperature_component_index c ≤ 2 := by
  rw [index_eq]
  split_ifs <;> norm_num

lemma neg_one_le_index (c : Component) : -1 ≤ get_overall_temperature_component_index c := by
  rw [index_eq]
  split_ifs <;> norm_num

/-- One step of the Phase A loop: the head is either skipped or becomes the
new target with its priority, the latter exactly when it is wanted, carries a
temperature, and its priority does not exceed the current one. -/
lemma overallLoop_cons (comp : Component) (rest : List Component)
    (st : Option Component × Int) :
    overallLoop (comp :: rest) st = overallLoop rest st ∨
      (get_overall_temperature_component_index comp ≠ -1 ∧
       comp.temperature ≠ none ∧
       ¬ get_overall_temperature_component_index comp > st.2 ∧
       overallLoop (comp :: rest) st =
         overallLoop rest (some comp, get_overall_temperature_component_index comp)) := by
  by_cases h1 : get_overall_temperature_component_index comp = -1
  · left
    simp [overallLoop, h1]
  · by_cases h2 : comp.temperature = none
    · left
      simp [overallLoop, h1, h2]
    · by_cases h3 : get_overall_temperature_component_index comp > st.2
      · left
        simp [overallLoop, h1, h2, h3]
      · right
        exact ⟨h1, h2, h3, by simp [overallLoop, h1, h2, h3]⟩

/-- The target tracked by the Phase A loop is the initial one or a member of
the traversed list. -/
lemma overallLoop_target (l : List Component) :
    ∀ st : Option Component × Int,
      (overallLoop l st).1 = st.1 ∨ ∃ c ∈ l, (overallLoop l st).1 = some c := by
  induction l with
  | nil => intro st; left; rfl
  | cons comp rest ih =>
    intro st
    rcases overallLoop_cons comp rest st with h | ⟨_, _, _, h⟩
    · rw [h]
      rcases ih st with h' | ⟨c, hc, he⟩
      · left; exact h'
      · right; exact ⟨c, List.mem_cons_of_mem _ hc, he⟩
    · rw [h]
      rcases ih (some comp, get_overall_temperature_component_index comp) with h' | ⟨c, hc, he⟩
      · right
        exact ⟨comp, List.mem_cons_self _ _, h'⟩
      · right
        exact ⟨c, List.mem_cons_of_mem _ hc, he⟩

/-- A lower bound on every wanted priority in the list is preserved by the
Phase A loop's `current_priority`. -/
lemma overallLoop_snd_ge (p : Int) (l : List Component) :
    ∀ st : Option Component × Int, p ≤ st.2 →
      (∀ c ∈ l, get_overall_temperature_component_index c ≠ -1 →
        c.temperature ≠ none → p ≤ get_overall_temperature_component_index c) →
      p ≤ (overallLoop l st).2 := by
  induction l with
  | nil => intro st hp _; exact hp
  | cons comp rest ih =>
    intro st hp hall
    rcases overallLoop_cons comp rest st with h | ⟨h1, h2, _, h⟩
    · rw [h]
      exact ih st hp fun c hc => hall c (List.mem_cons_of_mem _ hc)
    · rw [h]
      exact ih _ (hall comp (List.mem_cons_self _ _) h1 h2)
        fun c hc => hall c (List.mem_cons_of_mem _ hc)

/-- The Phase A loop processes an appended list in two stages. -/
lemma overallLoop_append (xs ys : List Component) :
    ∀ st : Option Component × Int,
      overallLoop (xs ++ ys) st = overallLoop ys (overallLoop xs st) := by
  induction xs with
  | nil => intro st; rfl
  | cons comp rest ih =>
    intro st
    by_cases h1 : get_overall_temperature_component_index comp = -1
    · simp only [List.cons_append, overallLoop]
      rw [if_pos h1, if_pos h1]
      exact ih st
    · by_cases h2 : comp.temperature = none
      · simp only [List.cons_append, overallLoop]
        rw [if_neg h1, if_pos h2, if_neg h1, if_pos h2]
        exact ih st
      · by_cases h3 : get_overall_temperature_component_index comp > st.2
        · simp only [List.cons_append, overallLoop]
          rw [if_neg h1, if_neg h2, if_pos h3, if_neg h1, if_neg h2, if_pos h3]
          exact ih st
        · simp only [List.cons_append, overallLoop]
          rw [if_neg h1, if_neg h2, if_neg h3, if_neg h1, if_neg h2, if_neg h3]
          exact ih _

/-- When Phase A yields a temperature, some component of the input reported
exactly that temperature. -/
lemma get_overall_cpu_temp_mem (l : List Component) (v : Int)
    (h : get_overall_cpu_temp l = some v) :
    ∃ c ∈ l, c.temperature = some v := by
  unfold get_overall_cpu_temp at h
  rcases hm : (overallLoop l (none, I32_MAX)).1 with _ | c
  · rw [hm] at h
    exact absurd h (by simp)
  · rw [hm] at h
    rcases overallLoop_target l (none, I32_MAX) with h0 | ⟨c', hc', he⟩
    · rw [h0] at hm
      exact absurd hm (by simp)
    · rw [he] at hm
      exact ⟨c, by rw [← Option.some_inj.1 hm]; exact hc', h⟩

/-!  Helper lemmas about the Phase B collection and the max reduction. -/

/-- A component matching neither per-core pattern contributes nothing to the
collected temperatures. -/
lemma coreLoop_skip (comp : Component) (rest : List Component) (acc : List Int)
    (hi : intelCpuRegexMatch comp.label = false)
    (ha : amdCpuRegexMatch comp.label = false) :
    coreLoop (comp :: rest) acc = coreLoop rest acc := by
  simp [coreLoop, hi, ha]

/-- Every temperature collected by the Phase B loop is either already in the
accumulator or reported by some traversed component. -/
lemma coreLoop_mem (l : List Component) :
    ∀ (acc : List Int) (t : Int), t ∈ coreLoop l acc →
      t ∈ acc ∨ ∃ c ∈ l, c.temperature = some t := by
  induction l with
  | nil =>
    intro acc t ht
    left
    simpa [coreLoop] using ht
  | cons comp rest ih =>
    intro acc t ht
    by_cases hm : intelCpuRegexMatch comp.label = true ∨ amdCpuRegexMatch comp.label = true
    · rcases htemp : comp.temperature with _ | v
      · have ht' : t ∈ coreLoop rest acc := by
          rcases hm with hm | hm <;>
            simpa [coreLoop, hm, htemp] using ht
        rcases ih acc t ht' with h | ⟨c, hc, he⟩
        · left; exact h
        · right; exact ⟨c, List.mem_cons_of_mem _ hc, he⟩
      · have ht' : t ∈ coreLoop rest (acc ++ [v]) := by
          rcases hm with hm | hm
          · simpa [coreLoop, hm, htemp] using ht
          · by_cases hi : intelCpuRegexMatch comp.label = true
            · simpa [coreLoop, hi, htemp] using ht
            · simpa [coreLoop, eq_false_of_ne_true hi, hm, htemp] using ht
        rcases ih _ t ht' with h | ⟨c, hc, he⟩
        · rcases List.mem_append.1 h with h | h
          · left; exact h
          · right
            refine ⟨comp, List.mem_cons_self _ _, ?_⟩
            rw [htemp, List.mem_singleton.1 h]
        · right; exact ⟨c, List.mem_cons_of_mem _ hc, he⟩
    · push_neg at hm
      have ht' : t ∈ coreLoop rest acc := by
        rw [← coreLoop_skip comp rest acc (eq_false_of_ne_true hm.1) (eq_false_of_ne_true hm.2)]
        exact ht
      rcases ih acc t ht' with h | ⟨c, hc, he⟩
      · left; exact h
      · right; exact ⟨c, List.mem_cons_of_mem _ hc, he⟩

/-- The Phase B loop processes an appended list in two stages. -/
lemma coreLoop_append (xs ys : List Component) :
    ∀ acc : List Int, coreLoop (xs ++ ys) acc = coreLoop ys (coreLoop xs acc) := by
  induction xs with
  | nil => intro acc; rfl
  | cons comp rest ih =>
    intro acc
    by_cases hi : intelCpuRegexMatch comp.label = true
    · rcases htemp : comp.temperature with _ | v <;>
        · simp only [List.cons_append, coreLoop, hi, htemp, if_true]
          exact ih _
    · by_cases ha : amdCpuRegexMatch comp.label = true
      · rcases htemp : comp.temperature with _ | v <;>
          · simp only [List.cons_append, coreLoop, eq_false_of_ne_true hi, ha, htemp,
              if_true, if_false]
            exact ih _
      · simp only [List.cons_append, coreLoop, eq_false_of_ne_true hi,
          eq_false_of_ne_true ha, if_false]
        exact ih acc

/-- The fold used by the max reduction always lands on one of its inputs. -/
lemma foldl_max_mem (rest : List Int) :
    ∀ t : Int, rest.foldl (fun acc x => if acc > x then acc else x) t ∈ t :: rest := by
  induction rest with
  | nil => intro t; simp
  | cons x xs ih =>
    intro t
    simp only [List.foldl_cons]
    rcases List.mem_cons.1 (ih (if t > x then t else x)) with he | hm
    · rw [he]
      by_cases hc : t > x
      · rw [if_pos hc]
        exact List.mem_cons_self _ _
      · rw [if_neg hc]
        exact List.mem_cons_of_mem _ (List.mem_cons_self _ _)
    · exact List.mem_cons_of_mem _ (List.mem_cons_of_mem _ hm)

/-- The max reduction, when it answers, answers with a member of the list. -/
lemma maxByGt_mem (l : List Int) (v : Int) (h : maxByGt l = some v) : v ∈ l := by
  rcases l with _ | ⟨t, rest⟩
  · exact absurd h (by simp [maxByGt])
  · rw [maxByGt, Option.some_inj] at h
    rw [← h]
    exact foldl_max_mem rest t

/-- The max reduction answers on every non-empty list. -/
lemma maxByGt_isSome (l : List Int) (h : l ≠ []) : (maxByGt l).isSome = true := by
  rcases l with _ | ⟨t, rest⟩
  · exact absurd rfl h
  · rfl

/-!  Claim theorems. -/

/-- Claim C1: the spec expects selection on the set with both a Package id 0
reading of 50 and a Tctl reading of 60 to return 60.  The code instead skips
every component labelled with the first priority-list entry, because the
index helper hands it the sentinel value `-1` that the Phase A loop treats as
not wanted, so both enumeration orders return the Package id 0 reading 50. -/
theorem claim1_tctl_sensor_is_skipped :
    get_temp [⟨"Package id 0", some 50⟩, ⟨"Tctl", some 60⟩] = some 50 ∧
    get_temp [⟨"Tctl", some 60⟩, ⟨"Package id 0", some 50⟩] = some 50 := by
  decide

/-- Claim C2: the spec expects selection to be absent whenever no entry
matches a canonical label or a per-core pattern; the empty set does yield
`none`, but the singleton Ambient reading yields its value 30, because an
unmatched label receives priority 2 rather than the skip sentinel `-1`. -/
theorem claim2_unmatched_label_is_selected :
    get_temp [⟨"Ambient", some 30⟩] = some 30 ∧
    get_temp ([] : List Component) = none := by
  decide

/-- Claim C3 counterexample: two equally prioritised Package id 0 readings
enumerated as 10 then 20 select the later reading 20, not the earlier 10, so
ties are not first-seen-wins. -/
theorem claim3_counterexample :
    get_overall_cpu_temp [⟨"Package id 0", some 10⟩, ⟨"Package id 0", some 20⟩] = some 20 ∧
    get_overall_cpu_temp [⟨"Package id 0", some 10⟩, ⟨"Package id 0", some 20⟩] ≠ some 10 := by
  decide

/-- Claim C3 as amended: in Phase A, among the sensors the loop accepts
(priority index other than `-1`, temperature present), one with the lowest
priority index is selected, and ties are last-seen-wins: a later sensor whose
priority is equal to (or below) that of every accepted sensor before it
replaces the current best, so the later one's temperature is returned. -/
theorem claim3_tie_goes_to_later_sensor (xs : List Component) (c2 : Component)
    (h1 : get_overall_temperature_component_index c2 ≠ -1)
    (h2 : c2.temperature ≠ none)
    (h3 : ∀ c ∈ xs, get_overall_temperature_component_index c ≠ -1 → c.temperature ≠ none →
        get_overall_temperature_component_index c2 ≤ get_overall_temperature_component_index c) :
    get_overall_cpu_temp (xs ++ [c2]) = c2.temperature := by
  have hmax : get_overall_temperature_component_index c2 ≤ I32_MAX := by
    have := index_le_two c2
    unfold I32_MAX
    omega
  have hle : get_overall_temperature_component_index c2 ≤ (overallLoop xs (none, I32_MAX)).2 :=
    overallLoop_snd_ge _ xs (none, I32_MAX) hmax h3
  unfold get_overall_cpu_temp
  rw [overallLoop_append]
  simp only [overallLoop]
  rw [if_neg h1, if_neg h2, if_neg (not_lt.mpr hle)]

/-- Claim C3 witness: the amended theorem applied to the tie between two
Package id 0 readings enumerated as 10 then 20 returns the later 20. -/
theorem claim3_witness :
    get_overall_cpu_temp [⟨"Package id 0", some 10⟩, ⟨"Package id 0", some 20⟩] = some 20 :=
  claim3_tie_goes_to_later_sensor [⟨"Package id 0", some 10⟩] ⟨"Package id 0", some 20⟩
    (by decide) (by decide) (by decide)

/-- Claim C4: the spec expects inputs without a canonical-label sensor to
fall through to Phase B and return the per-core maximum 45; but Phase A
accepts the unmatched per-core labels at priority 2 and keeps the last one
enumerated, so this enumeration returns 40 and Phase B is never reached. -/
theorem claim4_fallback_preempted :
    get_temp [⟨"CPU 1", some 45⟩, ⟨"CPU 0", some 40⟩] = some 40 ∧
    (get_overall_cpu_temp [⟨"CPU 1", some 45⟩, ⟨"CPU 0", some 40⟩]).isSome = true := by
  decide

/-- Claim C5 counterexample: on the set with a valueless Tctl reading and a
CPU 0 reading of 42, Phase A itself already answers 42, so the computation
does not fall through to Phase B as the claim states. -/
theorem claim5_counterexample :
    get_overall_cpu_temp [⟨"Tctl", none⟩, ⟨"CPU 0", some 42⟩] = some 42 ∧
    get_overall_cpu_temp [⟨"Tctl", none⟩, ⟨"CPU 0", some 42⟩] ≠ none := by
  decide

/-- Claim C5 as amended: on the set with a valueless Tctl reading and a CPU 0
reading of 42, selection returns 42, but via Phase A itself: the Tctl sensor
is skipped (its index is the sentinel `-1`), while the non-canonical label
CPU 0 receives priority 2 and is selected; Phase B is not reached. -/
theorem claim5_value_from_phase_a :
    get_temp [⟨"Tctl", none⟩, ⟨"CPU 0", some 42⟩] = some 42 ∧
    get_overall_cpu_temp [⟨"Tctl", none⟩, ⟨"CPU 0", some 42⟩] = some 42 ∧
    get_overall_temperature_component_index ⟨"Tctl", none⟩ = -1 := by
  decide

/-- Claim C6: a label matches the Intel per-core pattern exactly when it is
the four characters of the CPU-space prefix followed by one digit, and the
AMD pattern exactly when it is the four characters of the Tctl prefix
followed by one digit; the two-digit label CPU 12 matches neither pattern,
and a sensor carrying it never contributes to the Phase B candidate list, at
any position and whether or not it holds a temperature. -/
theorem claim6_pattern_exactness :
    (∀ s : String, intelCpuRegexMatch s = true ↔
        ∃ d : Char, d.isDigit = true ∧ s.data = ['C', 'P', 'U', ' ', d]) ∧
    (∀ s : String, amdCpuRegexMatch s = true ↔
        ∃ d : Char, d.isDigit = true ∧ s.data = ['T', 'c', 't', 'l', d]) ∧
    intelCpuRegexMatch ("CPU 12") = false ∧
    amdCpuRegexMatch ("CPU 12") = false ∧
    (∀ (xs ys : List Component) (t : Option Int),
      get_cpu_core_temps (xs ++ ⟨"CPU 12", t⟩ :: ys) = get_cpu_core_temps (xs ++ ys)) := by
  refine ⟨?_, ?_, by decide, by decide, ?_⟩
  · intro s
    rcases hs : s.data with _ | ⟨c1, _ | ⟨c2, _ | ⟨c3, _ | ⟨c4, _ | ⟨d, _ | ⟨e, rest⟩⟩⟩⟩⟩⟩ <;>
      simp [intelCpuRegexMatch, hs]
    constructor
    · rintro ⟨⟨⟨⟨e1, e2⟩, e3⟩, e4⟩, e5⟩
      exact ⟨d, e5, e1, e2, e3, e4, rfl⟩
    · rintro ⟨d', hd', e1, e2, e3, e4, e5⟩
      exact ⟨⟨⟨⟨e1, e2⟩, e3⟩, e4⟩, e5 ▸ hd'⟩
  · intro s
    rcases hs : s.data with _ | ⟨c1, _ | ⟨c2, _ | ⟨c3, _ | ⟨c4, _ | ⟨d, _ | ⟨e, rest⟩⟩⟩⟩⟩⟩ <;>
      simp [amdCpuRegexMatch, hs]
    constructor
    · rintro ⟨⟨⟨⟨e1, e2⟩, e3⟩, e4⟩, e5⟩
      exact ⟨d, e5, e1, e2, e3, e4, rfl⟩
    · rintro ⟨d', hd', e1, e2, e3, e4, e5⟩
      exact ⟨⟨⟨⟨e1, e2⟩, e3⟩, e4⟩, e5 ▸ hd'⟩
  · intro xs ys t
    unfold get_cpu_core_temps
    rw [coreLoop_append, coreLoop_skip ⟨"CPU 12", t⟩ ys (coreLoop xs []) rfl rfl,
      ← coreLoop_append]

/-- Claim C7: whenever selection answers with a value, that value is the
temperature actually reported by some sensor of the input set; it is never
synthesized. -/
theorem claim7_result_is_reported (l : List Component) (v : Int)
    (h : get_temp l = some v) :
    ∃ c ∈ l, c.temperature = some v := by
  simp only [get_temp] at h
  by_cases ho : (get_overall_cpu_temp l).isSome = true
  · rw [if_pos ho] at h
    exact get_overall_cpu_temp_mem l v h
  · rw [if_neg ho] at h
    by_cases hl : (get_cpu_core_temps l).length = 0
    · rw [if_pos hl] at h
      exact absurd h (by simp)
    · rw [if_neg hl] at h
      rcases coreLoop_mem l [] v (maxByGt_mem _ v h) with h0 | hex
      · exact absurd h0 (by simp)
      · exact hex

/-- Claim C7 witness: the reported-value theorem applied to a singleton
Package id 0 reading of 50 produces that very sensor. -/
theorem claim7_witness :
    ∃ c ∈ [(⟨"Package id 0", some 50⟩ : Component)], c.temperature = some 50 :=
  claim7_result_is_reported [⟨"Package id 0", some 50⟩] 50 (by decide)

/-- Claim C8: selection is total: on every input it returns either a value or
`none`, and the max reduction over a non-empty Phase B candidate list always
answers, so the final `.copied()` path never hits an absent result. -/
theorem claim8_selection_never_fails (l : List Component) :
    ((get_temp l).isSome = true ∨ get_temp l = none) ∧
    (get_cpu_core_temps l = [] ∨ (maxByGt (get_cpu_core_temps l)).isSome = true) := by
  constructor
  · rcases h : get_temp l with _ | v
    · right; rfl
    · left; rfl
  · by_cases h : get_cpu_core_temps l = []
    · left; exact h
    · right; exact maxByGt_isSome _ h

/-- Claim C9 counterexample: the label CPU Temperature receives priority 1
while an unmatched label receives 2, so unmatched labels do not share
priority 2 with the CPU Temperature label. -/
theorem claim9_counterexample :
    get_overall_temperature_component_index ⟨"CPU Temperature", none⟩ = 1 ∧
    get_overall_temperature_component_index ⟨"Ambient", none⟩ = 2 ∧
    (1 : Int) ≠ 2 := by
  decide

/-- Claim C9 as amended: the priority-index helper returns `-1` when the
label is Tctl, 0 for Package id 0, 1 for CPU Temperature, and 2 for every
other label; the documented not-found sentinel `-1` is in fact produced by
the highest-priority canonical label, and unmatched labels receive 2, one
more than the CPU Temperature label. -/
theorem claim9_index_mapping (c : Component) :
    get_overall_temperature_component_index c =
      if c.label = "Tctl" then -1
      else if c.label = "Package id 0" then 0
      else if c.label = "CPU Temperature" then 1
      else 2 :=
  index_eq c

/-- Claim C10: the period-string update sets the refresh period to the
parsed value exactly when the input parses as an unsigned 64-bit integer of
at least 500; a failed parse or a value below 500 leaves the refresh period
unchanged; the displayed string becomes the input in every case. -/
theorem claim10_period_string_update (input : String) (w : WindowState) :
    (update_period_string input w).period_string = input ∧
    (∀ v, parse_u64 input = some v → 500 ≤ v →
      (update_period_string input w).config.refresh_period_milliseconds = v) ∧
    (parse_u64 input = none →
      (update_period_string input w).config.refresh_period_milliseconds =
        w.config.refresh_period_milliseconds) ∧
    (∀ v, parse_u64 input = some v → v < 500 →
      (update_period_string input w).config.refresh_period_milliseconds =
        w.config.refresh_period_milliseconds) := by
  rcases hp : parse_u64 input with _ | v0
  · refine ⟨by simp [update_period_string, hp], ?_, ?_, ?_⟩
    · intro v hsome
      exact absurd hsome (by simp)
    · intro _
      simp [update_period_string, hp]
    · intro v hsome
      exact absurd hsome (by simp)
  · by_cases hv : v0 ≥ 500
    · refine ⟨by simp [update_period_string, hp], ?_, ?_, ?_⟩
      · intro v hsome _
        rw [Option.some_inj] at hsome
        rw [← hsome]
        simp [update_period_string, hp, hv]
      · intro hnone
        exact absurd hnone (by simp)
      · intro v hsome hlt
        rw [Option.some_inj] at hsome
        rw [← hsome] at hlt
        exact absurd hlt (by omega)
    · refine ⟨by simp [update_period_string, hp], ?_, ?_, ?_⟩
      · intro v hsome h500
        rw [Option.some_inj] at hsome
        rw [← hsome] at h500
        exact absurd h500 (by omega)
      · intro hnone
        exact absurd hnone (by simp)
      · intro v hsome hlt
        simp [update_period_string, hp, hv]

/-- Claim C10 witness: updating with the string for 600 from a 1000
millisecond configuration keeps the display and sets the period to 600. -/
theorem claim10_witness :
    (update_period_string ("600") ⟨"1000", ⟨false, 1000⟩⟩).period_string = "600" ∧
    (update_period_string ("600") ⟨"1000", ⟨false, 1000⟩⟩).config.refresh_period_milliseconds
      = 600 := by
  obtain ⟨h1, h2, -, -⟩ := claim10_period_string_update ("600") ⟨"1000", ⟨false, 1000⟩⟩
  exact ⟨h1, h2 600 (by decide) (by decide)⟩
